import Mathlib

/-!
# Verification of the Patent-Valuation-Tool lattice engine

Shallow embedding of the valuation core of `app.py`:

* `calculate_lattices` (lines 119-159): binomial lattice parameters, the
  asset / exercise / option lattices, the cost-of-delay schedule and the
  per-period risk-neutral probabilities.  The Python function mutates a
  zero-initialised `(n+1) × (n+1)` array `C`; we model the array as a total
  function `ℕ → ℕ → ℝ` with default value `0` and model each `C[i][j] = v`
  assignment by a pointwise functional update, folded over the same index
  ranges the Python loops traverse.
* `get_C0` / `calculate_sensitivity_data` (lines 161-255): the single-point
  valuation helper (which recomputes the period count from `T` alone), the
  tornado/spider ±10 % perturbation evaluations and the spider percentage
  with its divide-by-zero guard.  Python's `round(x, k)` is modelled as
  rounding `x·10^k` to the nearest integer (the two differ only on exact
  ties, where Python rounds half to even).
* the `/calculate` route (lines 481-516): manual cost-of-delay parsing with
  its validation error, the scalar `delta_val` fallback, and the period
  count `n = int(T); if n == 0: n = 1`.  A manual-mode token that Python's
  `float` rejects is modelled as `none`; a numeric token as `some x`.

Machine floats are modelled as exact reals (`np.exp` as `Real.exp`,
`np.sqrt` as `Real.sqrt`, `**` on a negative integer exponent as `zpow`).
-/

namespace PatentValuation

/-- Python `int(x)` on a float: truncation toward zero. -/
noncomputable def pyTrunc (x : ℝ) : ℤ := if 0 ≤ x then ⌊x⌋ else ⌈x⌉

/-- `u = np.exp(sigma_effective * np.sqrt(dt))` with `dt = T / n` (app.py line 122). -/
noncomputable def uFactor (sigma T : ℝ) (n : ℕ) : ℝ :=
  Real.exp (sigma * Real.sqrt (T / n))

/-- `d = 1 / u` (app.py line 123). -/
noncomputable def dFactor (sigma T : ℝ) (n : ℕ) : ℝ := 1 / uFactor sigma T n

/-- `A[i][j] = V * (u**(j-i)) * (d**i)` (app.py line 125); `j - i` is a Python
integer that may be negative, hence the `zpow`. -/
noncomputable def assetLattice (V sigma T : ℝ) (n : ℕ) (i j : ℕ) : ℝ :=
  V * uFactor sigma T n ^ ((j : ℤ) - (i : ℤ)) * dFactor sigma T n ^ i

/-- `N[i][j] = max(A[i][j] - K, 0)` (app.py line 126). -/
noncomputable def exerciseLattice (V K sigma T : ℝ) (n : ℕ) (i j : ℕ) : ℝ :=
  max (assetLattice V sigma T n i j - K) 0

/-- The auto-mode cost-of-delay schedule (app.py lines 140-146):
start from `[0.0] * (n+1)`; if `n > 0 and delta > 0` build the geometric
interpolation `delta * (1+g)**t` with `g = (1/delta)**(1/n) - 1` and force
`deltas[n] = 1.0`; else if `n == 0` the schedule is `[delta]`. -/
noncomputable def autoDeltas (delta : ℝ) (n : ℕ) : List ℝ :=
  if 0 < n ∧ 0 < delta then
    (List.range (n + 1)).map fun t =>
      if t = n then 1 else delta * (1 + ((1 / delta) ^ ((1 : ℝ) / (n : ℝ)) - 1)) ^ t
  else if n = 0 then [delta]
  else List.replicate (n + 1) 0

/-- The cost-of-delay schedule (app.py lines 137-146): a manual sequence is
used (with a forced terminal `1.0` appended) exactly when it is supplied and
has exactly `n` entries; otherwise the auto-mode schedule applies. -/
noncomputable def deltasOf (delta : ℝ) (n : ℕ) (dm : Option (List ℝ)) : List ℝ :=
  match dm with
  | some l => if l.length = n then l ++ [1] else autoDeltas delta n
  | none => autoDeltas delta n

/-- `ps_for_export` (app.py line 148):
`(np.exp((r - deltas[t]) * dt) - d) / (u - d) if u != d else 0` for `t` in
`0..n`. -/
noncomputable def psOf (T sigma delta r : ℝ) (n : ℕ) (dm : Option (List ℝ)) : List ℝ :=
  (List.range (n + 1)).map fun t =>
    if uFactor sigma T n ≠ dFactor sigma T n then
      (Real.exp ((r - (deltasOf delta n dm).getD t 0) * (T / n)) - dFactor sigma T n) /
        (uFactor sigma T n - dFactor sigma T n)
    else 0

/-- `discount = np.exp(-r * dt)` (app.py line 133). -/
noncomputable def discountOf (r T : ℝ) (n : ℕ) : ℝ := Real.exp (-r * (T / n))

/-- One array assignment `C[i][j] = v` on the functional model of the
`(n+1) × (n+1)` array. -/
def latUpdate (C : ℕ → ℕ → ℝ) (i j : ℕ) (v : ℝ) : ℕ → ℕ → ℝ :=
  fun i' j' => if i' = i ∧ j' = j then v else C i' j'

/-- The terminal boundary loop (app.py lines 128-131): starting from the
all-zero array, `for i in range(n+1): C[i][n] = N[i][n]`. -/
def terminalC (Nf : ℕ → ℕ → ℝ) (n : ℕ) : ℕ → ℕ → ℝ :=
  (List.range (n + 1)).foldl (fun Cc i => latUpdate Cc i n (Nf i n)) fun _ _ => 0

/-- The inner induction loop (app.py lines 154-157): for `i in range(j+1)`,
`C[i][j] = max(discount * (p*C[i][j+1] + (1-p)*C[i+1][j+1]), N[i][j])`. -/
def inductColumn (Nf : ℕ → ℕ → ℝ) (disc p : ℝ) (j : ℕ) (Cc : ℕ → ℕ → ℝ) : ℕ → ℕ → ℝ :=
  (List.range (j + 1)).foldl
    (fun Cc2 i =>
      latUpdate Cc2 i j
        (max (disc * (p * Cc2 i (j + 1) + (1 - p) * Cc2 (i + 1) (j + 1))) (Nf i j)))
    Cc

/-- The outer induction loop (app.py lines 151-157): columns are processed
for `j in range(n-1, -1, -1)`, i.e. `j = n-1` down to `0`, using
`p = ps_for_induction[j]` (which is `ps_for_export[j]` since
`ps_for_induction = ps_for_export[:-1]`, app.py line 149). -/
def backInduct (Nf : ℕ → ℕ → ℝ) (disc : ℝ) (ps : List ℝ) : ℕ → (ℕ → ℕ → ℝ) → ℕ → ℕ → ℝ
  | 0, Cc => Cc
  | m + 1, Cc => backInduct Nf disc ps m (inductColumn Nf disc (ps.getD m 0) m Cc)

/-- The fully-inducted option lattice `C` returned by `calculate_lattices`. -/
noncomputable def optionLattice (V K T sigma delta r : ℝ) (n : ℕ) (dm : Option (List ℝ)) :
    ℕ → ℕ → ℝ :=
  backInduct (exerciseLattice V K sigma T n) (discountOf r T n) (psOf T sigma delta r n dm) n
    (terminalC (exerciseLattice V K sigma T n) n)

/-- The six return values `A, N, C, times, deltas, ps_for_export` of
`calculate_lattices` (app.py line 159). -/
structure LatRes where
  A : ℕ → ℕ → ℝ
  N : ℕ → ℕ → ℝ
  C : ℕ → ℕ → ℝ
  times : List ℕ
  deltas : List ℝ
  ps : List ℝ

/-- `calculate_lattices(V, K, T, sigma, delta, r, n, deltas_manual)`
(app.py lines 119-159); `dm = none` is the `deltas_manual=None` default. -/
noncomputable def calculate_lattices (V K T sigma delta r : ℝ) (n : ℕ)
    (dm : Option (List ℝ)) : LatRes :=
  ⟨assetLattice V sigma T n, exerciseLattice V K sigma T n,
    optionLattice V K T sigma delta r n dm, List.range (n + 1),
    deltasOf delta n dm, psOf T sigma delta r n dm⟩

/-- `new_n = max(1, int(T))` inside `get_C0` (app.py line 166). -/
noncomputable def get_C0_periods (T : ℝ) : ℤ := max 1 (pyTrunc T)

/-- `get_C0(V, K, T, sigma, delta, r, n)` (app.py lines 165-167): the
passed-in `n` is ignored and the period count is recomputed from `T`; the
caller sometimes passes a float here (`new_T`, line 193), so the ignored
argument is modelled with type `ℝ`. -/
noncomputable def get_C0 (V K T sigma delta r : ℝ) (_nArg : ℝ) : ℝ :=
  (calculate_lattices V K T sigma delta r (get_C0_periods T).toNat none).C 0 0 / 1000

/-- The six perturbable parameters of `calculate_sensitivity_data`
(app.py lines 174-181). -/
inductive SensParam
  | V
  | sigma
  | T
  | K
  | delta
  | r

/-- One tornado/spider evaluation (app.py lines 186-199): the named
parameter is scaled by `factor`; perturbing `T` passes the perturbed
`new_T` both as maturity and as the (ignored) period argument. -/
noncomputable def sensEval (V K T sigma delta r nArg : ℝ) (p : SensParam) (factor : ℝ) : ℝ :=
  match p with
  | .V => get_C0 (V * factor) K T sigma delta r nArg
  | .sigma => get_C0 V K T (sigma * factor) delta r nArg
  | .T => get_C0 V K (T * factor) sigma delta r (T * factor)
  | .K => get_C0 V (K * factor) T sigma delta r nArg
  | .delta => get_C0 V K T sigma (delta * factor) r nArg
  | .r => get_C0 V K T sigma delta (r * factor) nArg

/-- Python `round(x, 2)` modelled as nearest-multiple-of-`1/100` rounding. -/
noncomputable def round2 (x : ℝ) : ℝ := (round (x * 100) : ℤ) / 100

/-- Python `round(x, 4)` modelled as nearest-multiple-of-`1/10000` rounding. -/
noncomputable def round4 (x : ℝ) : ℝ := (round (x * 10000) : ℤ) / 10000

/-- The spider percentage for one parameter (app.py lines 203-220):
`results = [eval(0.9), eval(1.1)]`, `min_C`/`max_C` over the two results,
`0.0` when the base option value is zero (the division is guarded), else
`max(|max_C - base|, |min_C - base|) / base * 100`, rounded to 2 decimals. -/
noncomputable def spiderPercent (V K T sigma delta r nArg : ℝ) (p : SensParam) : ℝ :=
  round2
    (if get_C0 V K T sigma delta r nArg = 0 then 0
     else
       max
           |max (sensEval V K T sigma delta r nArg p 0.9)
               (sensEval V K T sigma delta r nArg p 1.1) -
             get_C0 V K T sigma delta r nArg|
           |min (sensEval V K T sigma delta r nArg p 0.9)
               (sensEval V K T sigma delta r nArg p 1.1) -
             get_C0 V K T sigma delta r nArg| /
         get_C0 V K T sigma delta r nArg * 100)

/-- `np.linspace(a, b, num)` as a list: `a + k·(b-a)/(num-1)` for `k < num`. -/
noncomputable def linspace (a b : ℝ) (num : ℕ) : List ℝ :=
  (List.range num).map fun k => a + (b - a) * k / ((num : ℝ) - 1)

/-- `sigma_line_range = np.linspace(sigma*0.5, sigma*1.5, 7)` (app.py line 223). -/
noncomputable def sigmaLineRange (sigma : ℝ) : List ℝ :=
  linspace (sigma * 0.5) (sigma * 1.5) 7

/-- One line-chart-1 series (app.py lines 227-231): option values across the
volatility sweep for an asset value scaled by `factor`. -/
noncomputable def lineChartVSeries (V K T sigma delta r nArg : ℝ) (factor : ℝ) : List ℝ :=
  (sigmaLineRange sigma).map fun s => round2 (get_C0 (V * factor) K T s delta r nArg)

/-- One line-chart-2 series (app.py lines 237-241): option values across the
volatility sweep for a cost-of-delay scaled by `factor`. -/
noncomputable def lineChartDeltaSeries (V K T sigma delta r nArg : ℝ) (factor : ℝ) : List ℝ :=
  (sigmaLineRange sigma).map fun s => round2 (get_C0 V K T s (delta * factor) r nArg)

/-- `delta-mode` of a `/calculate` request (app.py line 489). -/
inductive DeltaMode
  | auto
  | manual

/-- A `/calculate` request (app.py lines 485-512).  In manual mode the
comma-separated entries are pre-tokenised: `some x` is an entry Python's
`float` parses to `x`, `none` a non-numeric entry; the empty list models an
empty `delta` field. -/
structure CalcRequest where
  V : ℝ
  K : ℝ
  T : ℝ
  sigma : ℝ
  r : ℝ
  deltaMode : DeltaMode
  deltaScalar : ℝ
  deltaTokens : List (Option ℝ)

/-- `[float(d.strip()) for d in delta_input.split(',')]` (app.py line 499):
the whole list parses iff every token is numeric, otherwise `float` raises
`ValueError`. -/
def parseManualTokens : List (Option ℝ) → Option (List ℝ)
  | [] => some []
  | none :: _ => none
  | some x :: rest => (parseManualTokens rest).map fun l => x :: l

/-- `n = int(T); if n == 0: n = 1` (app.py lines 514-516). -/
noncomputable def routeN (T : ℝ) : ℤ :=
  if pyTrunc T = 0 then 1 else pyTrunc T

/-- The part of the `/calculate` JSON response the claims are about: the
period count used for the main valuation, the raw lattice result, and the
rounded initial option value in thousands (app.py lines 519-525, 656-662). -/
structure CalcResponse where
  nUsed : ℤ
  lat : LatRes
  initial_option_value : ℝ

/-- The main-valuation stage of the route (app.py lines 514-525): derive
`n` from `T`, run `calculate_lattices` on the thousand-scaled inputs, read
`C[0][0]`.  When `n` is negative (possible only for `T ≤ -1`) the Python
lattices are empty and `C[0][0]` raises `IndexError`, caught by the outer
handler as a 500; that exceptional path is the `.error` branch here. -/
noncomputable def buildResponse (req : CalcRequest) (delta_val : ℝ) (dm : Option (List ℝ)) :
    Except (String × ℕ) CalcResponse :=
  if 1 ≤ routeN req.T then
    let res := calculate_lattices (req.V * 1000) (req.K * 1000) req.T req.sigma delta_val
      req.r (routeN req.T).toNat dm
    .ok ⟨routeN req.T, res, round4 (res.C 0 0 / 1000)⟩
  else .error ("list index out of range", 500)

/-- The `/calculate` route (app.py lines 481-516 control flow): auto mode
uses the scalar delta; manual mode first parses the token list, returning
the 400 validation error on any non-numeric entry (app.py lines 502-503)
before any lattice or sensitivity work, and otherwise uses the first parsed
entry (or `0.0` for an empty sequence) as the scalar `delta_val`
(app.py line 505). -/
noncomputable def calculate (req : CalcRequest) : Except (String × ℕ) CalcResponse :=
  match req.deltaMode with
  | .auto => buildResponse req req.deltaScalar none
  | .manual =>
    match parseManualTokens req.deltaTokens with
    | none => .error ("Manual Cost of Delay values must be valid numbers.", 400)
    | some dm => buildResponse req (dm.headD 0) (some dm)

/-! ## Characterisation of the induction loops -/

theorem terminal_fold_apply (Nf : ℕ → ℕ → ℝ) (n : ℕ) :
    ∀ (m : ℕ) (C0 : ℕ → ℕ → ℝ) (i j : ℕ),
      ((List.range m).foldl (fun Cc i' => latUpdate Cc i' n (Nf i' n)) C0) i j
        = if j = n ∧ i < m then Nf i n else C0 i j := by
  intro m
  induction m with
  | zero => intro C0 i j; simp
  | succ m ih =>
    intro C0 i j
    rw [List.range_succ, List.foldl_append, List.foldl_cons, List.foldl_nil]
    show latUpdate _ m n (Nf m n) i j = _
    rw [latUpdate]
    by_cases h1 : i = m ∧ j = n
    · obtain ⟨hi, hj⟩ := h1
      subst hi; subst hj
      simp
    · rw [if_neg h1, ih]
      by_cases h2 : j = n ∧ i < m
      · rw [if_pos h2, if_pos ⟨h2.1, Nat.lt_succ_of_lt h2.2⟩]
      · rw [if_neg h2, if_neg]
        rintro ⟨hj, hi⟩
        rcases Nat.lt_succ_iff_lt_or_eq.1 hi with h | h
        · exact h2 ⟨hj, h⟩
        · exact h1 ⟨h, hj⟩

theorem terminalC_apply (Nf : ℕ → ℕ → ℝ) (n i j : ℕ) :
    terminalC Nf n i j = if j = n ∧ i ≤ n then Nf i n else 0 := by
  rw [terminalC, terminal_fold_apply]
  simp [Nat.lt_succ_iff]

theorem inductColumn_fold_apply (Nf : ℕ → ℕ → ℝ) (disc p : ℝ) (j : ℕ) :
    ∀ (m : ℕ) (Cc : ℕ → ℕ → ℝ) (i' j' : ℕ),
      ((List.range m).foldl
          (fun Cc2 i =>
            latUpdate Cc2 i j
              (max (disc * (p * Cc2 i (j + 1) + (1 - p) * Cc2 (i + 1) (j + 1))) (Nf i j)))
          Cc) i' j'
        = if j' = j ∧ i' < m then
            max (disc * (p * Cc i' (j + 1) + (1 - p) * Cc (i' + 1) (j + 1))) (Nf i' j)
          else Cc i' j' := by
  intro m
  induction m with
  | zero => intro Cc i' j'; simp
  | succ m ih =>
    intro Cc i' j'
    rw [List.range_succ, List.foldl_append, List.foldl_cons, List.foldl_nil]
    show latUpdate _ m j
        (max (disc * (p * _ + (1 - p) * _)) (Nf m j)) i' j' = _
    rw [latUpdate]
    have hup : ∀ k, ((List.range m).foldl
        (fun Cc2 i =>
          latUpdate Cc2 i j
            (max (disc * (p * Cc2 i (j + 1) + (1 - p) * Cc2 (i + 1) (j + 1))) (Nf i j)))
        Cc) k (j + 1) = Cc k (j + 1) := by
      intro k
      rw [ih]
      simp
    by_cases h1 : i' = m ∧ j' = j
    · obtain ⟨hi, hj⟩ := h1
      subst hi; subst hj
      rw [if_pos ⟨rfl, rfl⟩, if_pos ⟨rfl, Nat.lt_succ_self i'⟩, hup, hup]
    · rw [if_neg h1, ih]
      by_cases h2 : j' = j ∧ i' < m
      · rw [if_pos h2, if_pos ⟨h2.1, Nat.lt_succ_of_lt h2.2⟩]
      · rw [if_neg h2, if_neg]
        rintro ⟨hj, hi⟩
        rcases Nat.lt_succ_iff_lt_or_eq.1 hi with h | h
        · exact h2 ⟨hj, h⟩
        · exact h1 ⟨h, hj⟩

theorem inductColumn_apply (Nf : ℕ → ℕ → ℝ) (disc p : ℝ) (j : ℕ) (Cc : ℕ → ℕ → ℝ)
    (i' j' : ℕ) :
    inductColumn Nf disc p j Cc i' j'
      = if j' = j ∧ i' ≤ j then
          max (disc * (p * Cc i' (j + 1) + (1 - p) * Cc (i' + 1) (j + 1))) (Nf i' j)
        else Cc i' j' := by
  rw [inductColumn, inductColumn_fold_apply]
  simp [Nat.lt_succ_iff]

theorem backInduct_high_col (Nf : ℕ → ℕ → ℝ) (disc : ℝ) (ps : List ℝ) :
    ∀ (m : ℕ) (Cc : ℕ → ℕ → ℝ) (i' j' : ℕ), m ≤ j' →
      backInduct Nf disc ps m Cc i' j' = Cc i' j' := by
  intro m
  induction m with
  | zero => intro Cc i' j' _; rfl
  | succ m ih =>
    intro Cc i' j' h
    rw [backInduct, ih _ _ _ (le_of_lt h), inductColumn_apply, if_neg]
    rintro ⟨hj, -⟩
    exact absurd h (by omega)

theorem backInduct_low_cell (Nf : ℕ → ℕ → ℝ) (disc : ℝ) (ps : List ℝ) :
    ∀ (m : ℕ) (Cc : ℕ → ℕ → ℝ) (i' j' : ℕ), j' < i' →
      backInduct Nf disc ps m Cc i' j' = Cc i' j' := by
  intro m
  induction m with
  | zero => intro Cc i' j' _; rfl
  | succ m ih =>
    intro Cc i' j' h
    rw [backInduct, ih _ _ _ h, inductColumn_apply, if_neg]
    rintro ⟨hj, hi⟩
    omega

theorem backInduct_rec (Nf : ℕ → ℕ → ℝ) (disc : ℝ) (ps : List ℝ) :
    ∀ (m : ℕ) (Cc : ℕ → ℕ → ℝ) (j : ℕ), j < m → ∀ i ≤ j,
      backInduct Nf disc ps m Cc i j
        = max (disc * (ps.getD j 0 * backInduct Nf disc ps m Cc i (j + 1) +
              (1 - ps.getD j 0) * backInduct Nf disc ps m Cc (i + 1) (j + 1)))
            (Nf i j) := by
  intro m
  induction m with
  | zero => intro Cc j h; omega
  | succ m ih =>
    intro Cc j hj i hi
    rcases Nat.lt_succ_iff_lt_or_eq.1 hj with h | h
    · exact ih _ j h i hi
    · subst h
      rw [backInduct]
      rw [backInduct_high_col _ _ _ _ _ _ _ (le_refl j),
        backInduct_high_col _ _ _ _ _ _ _ (Nat.le_succ j),
        backInduct_high_col _ _ _ _ _ _ _ (Nat.le_succ j),
        inductColumn_apply, if_pos ⟨rfl, hi⟩,
        inductColumn_apply, if_neg (by omega),
        inductColumn_apply, if_neg (by omega)]

theorem optionLattice_boundary (V K T sigma delta r : ℝ) (n : ℕ) (dm : Option (List ℝ))
    (i : ℕ) (hi : i ≤ n) :
    optionLattice V K T sigma delta r n dm i n = exerciseLattice V K sigma T n i n := by
  rw [optionLattice, backInduct_high_col _ _ _ _ _ _ _ (le_refl n), terminalC_apply,
    if_pos ⟨rfl, hi⟩]

theorem optionLattice_rec (V K T sigma delta r : ℝ) (n : ℕ) (dm : Option (List ℝ))
    (j : ℕ) (hj : j < n) (i : ℕ) (hi : i ≤ j) :
    optionLattice V K T sigma delta r n dm i j
      = max (discountOf r T n *
            ((psOf T sigma delta r n dm).getD j 0 *
              optionLattice V K T sigma delta r n dm i (j + 1) +
             (1 - (psOf T sigma delta r n dm).getD j 0) *
              optionLattice V K T sigma delta r n dm (i + 1) (j + 1)))
          (exerciseLattice V K sigma T n i j) := by
  rw [optionLattice]
  exact backInduct_rec _ _ _ n _ j hj i hi

theorem optionLattice_default_zero (V K T sigma delta r : ℝ) (n : ℕ) (dm : Option (List ℝ))
    (i j : ℕ) (hj : j < n) (hij : j < i) :
    optionLattice V K T sigma delta r n dm i j = 0 := by
  rw [optionLattice, backInduct_low_cell _ _ _ _ _ _ _ hij, terminalC_apply, if_neg]
  rintro ⟨hj', -⟩
  omega

/-! ## Schedule and parsing helper lemmas -/

theorem deltasOf_none (delta : ℝ) (n : ℕ) : deltasOf delta n none = autoDeltas delta n := rfl

theorem deltasOf_manual_match (delta : ℝ) (n : ℕ) (l : List ℝ) (h : l.length = n) :
    deltasOf delta n (some l) = l ++ [1] := by
  simp [deltasOf, h]

theorem deltasOf_manual_mismatch (delta : ℝ) (n : ℕ) (l : List ℝ) (h : l.length ≠ n) :
    deltasOf delta n (some l) = autoDeltas delta n := by
  simp [deltasOf, h]

theorem autoDeltas_of_nonpos (delta : ℝ) (n : ℕ) (hn : n ≠ 0) (hd : ¬0 < delta) :
    autoDeltas delta n = List.replicate (n + 1) 0 := by
  rw [autoDeltas, if_neg, if_neg hn]
  rintro ⟨-, h⟩
  exact hd h

theorem getD_replicate_zero (n k : ℕ) (h : k < n) :
    (List.replicate n (0 : ℝ)).getD k 0 = 0 := by
  induction n generalizing k with
  | zero => omega
  | succ n ih =>
    cases k with
    | zero => rfl
    | succ k => exact ih k (by omega)

theorem parseManualTokens_of_mem_none (toks : List (Option ℝ)) (h : none ∈ toks) :
    parseManualTokens toks = none := by
  induction toks with
  | nil => cases h
  | cons t rest ih =>
    cases t with
    | none => rfl
    | some x =>
      rw [parseManualTokens, ih (by simpa using h)]
      rfl

theorem calculate_lattices_mismatch (V K T sigma delta r : ℝ) (n : ℕ) (l : List ℝ)
    (h : l.length ≠ n) :
    calculate_lattices V K T sigma delta r n (some l)
      = calculate_lattices V K T sigma delta r n none := by
  have hdel : deltasOf delta n (some l) = deltasOf delta n none := by
    rw [deltasOf_manual_mismatch _ _ _ h, deltasOf_none]
  rw [calculate_lattices, calculate_lattices, optionLattice, optionLattice, psOf, psOf, hdel]

/-! ## Claim theorems -/

/-- C1: backward induction in `calculate_lattices` satisfies, for every input
`(V, K, T, sigma, delta, r)` and every period count `n ≥ 1`: the terminal
boundary `C[i][n] = N[i][n]` for every `i ≤ n`; for every `j < n` and `i ≤ j`,
`C[i][j] = max(discount · (p[j]·C[i][j+1] + (1-p[j])·C[i+1][j+1]), N[i][j])`
with `discount = exp(-r·dt)`; and every entry `C[i][j]` with `i > j`, `j < n`
keeps its zero default. -/
theorem C1_backward_induction (V K T sigma delta r : ℝ) (n : ℕ) (dm : Option (List ℝ))
    (hn : 1 ≤ n) :
    (∀ i ≤ n, (calculate_lattices V K T sigma delta r n dm).C i n
        = (calculate_lattices V K T sigma delta r n dm).N i n) ∧
    (∀ j < n, ∀ i ≤ j,
      (calculate_lattices V K T sigma delta r n dm).C i j
        = max (Real.exp (-r * (T / n)) *
              ((calculate_lattices V K T sigma delta r n dm).ps.getD j 0 *
                (calculate_lattices V K T sigma delta r n dm).C i (j + 1) +
               (1 - (calculate_lattices V K T sigma delta r n dm).ps.getD j 0) *
                (calculate_lattices V K T sigma delta r n dm).C (i + 1) (j + 1)))
            ((calculate_lattices V K T sigma delta r n dm).N i j)) ∧
    (∀ i j, j < n → j < i → (calculate_lattices V K T sigma delta r n dm).C i j = 0) := by
  refine ⟨fun i hi => ?_, fun j hj i hi => ?_, fun i j hj hij => ?_⟩
  · exact optionLattice_boundary V K T sigma delta r n dm i hi
  · exact optionLattice_rec V K T sigma delta r n dm j hj i hi
  · exact optionLattice_default_zero V K T sigma delta r n dm i j hj hij

theorem C1_backward_induction_witness :
    (∀ i ≤ 1, (calculate_lattices 1 1 1 0 0 0 1 none).C i 1
        = (calculate_lattices 1 1 1 0 0 0 1 none).N i 1) ∧
    (∀ j < 1, ∀ i ≤ j,
      (calculate_lattices 1 1 1 0 0 0 1 none).C i j
        = max (Real.exp (-0 * (1 / (1 : ℕ))) *
              ((calculate_lattices 1 1 1 0 0 0 1 none).ps.getD j 0 *
                (calculate_lattices 1 1 1 0 0 0 1 none).C i (j + 1) +
               (1 - (calculate_lattices 1 1 1 0 0 0 1 none).ps.getD j 0) *
                (calculate_lattices 1 1 1 0 0 0 1 none).C (i + 1) (j + 1)))
            ((calculate_lattices 1 1 1 0 0 0 1 none).N i j)) ∧
    (∀ i j, j < 1 → j < i → (calculate_lattices 1 1 1 0 0 0 1 none).C i j = 0) :=
  C1_backward_induction 1 1 1 0 0 0 1 none (le_refl 1)

/-- C9: every entry of the option lattice returned by `calculate_lattices` is
nonnegative, for arbitrary real inputs (including probabilities outside
`[0,1]`): exercise values are clamped at `0`, every induction step takes a
`max` with the exercise value, and unwritten cells keep their `0.0` default. -/
theorem C9_option_lattice_nonneg (V K T sigma delta r : ℝ) (n : ℕ) (dm : Option (List ℝ))
    (hn : 1 ≤ n) (i j : ℕ) (hi : i ≤ n) (hj : j ≤ n) :
    0 ≤ (calculate_lattices V K T sigma delta r n dm).C i j := by
  have hNonneg : ∀ i' j', (0 : ℝ) ≤ exerciseLattice V K sigma T n i' j' :=
    fun i' j' => le_max_right _ 0
  rcases Nat.lt_or_ge j n with hjn | hjn
  · rcases Nat.lt_or_ge j i with hij | hij
    · rw [show (calculate_lattices V K T sigma delta r n dm).C
          = optionLattice V K T sigma delta r n dm from rfl,
        optionLattice_default_zero V K T sigma delta r n dm i j hjn hij]
    · rw [show (calculate_lattices V K T sigma delta r n dm).C
          = optionLattice V K T sigma delta r n dm from rfl,
        optionLattice_rec V K T sigma delta r n dm j hjn i hij]
      exact le_trans (hNonneg i j) (le_max_right _ _)
  · have hjn' : j = n := le_antisymm hj hjn
    rw [show (calculate_lattices V K T sigma delta r n dm).C
        = optionLattice V K T sigma delta r n dm from rfl, hjn',
      optionLattice_boundary V K T sigma delta r n dm i hi]
    exact hNonneg i n

theorem C9_option_lattice_nonneg_witness :
    0 ≤ (calculate_lattices (-5) 3 1 (-2) 7 (-1) 1 (some [4])).C 0 0 :=
  C9_option_lattice_nonneg (-5) 3 1 (-2) 7 (-1) 1 (some [4]) (le_refl 1) 0 0
    (Nat.zero_le 1) (Nat.zero_le 1)

/-- C3: terminal cost-of-delay asymmetry.  For `n ≥ 1`: a manual sequence
with exactly `n` entries yields the schedule `l ++ [1.0]`, of length `n+1`
with terminal entry exactly `1.0`; with no manual sequence and scalar
`delta = 0` the schedule is all zeros, including its terminal entry, which
is not forced to `1.0`. -/
theorem C3_terminal_delta_asymmetry (V K T sigma delta r : ℝ) (n : ℕ) (hn : 1 ≤ n)
    (l : List ℝ) (hl : l.length = n) :
    ((calculate_lattices V K T sigma delta r n (some l)).deltas = l ++ [1] ∧
     (calculate_lattices V K T sigma delta r n (some l)).deltas.length = n + 1 ∧
     (calculate_lattices V K T sigma delta r n (some l)).deltas.getD n 0 = 1) ∧
    ((calculate_lattices V K T sigma 0 r n none).deltas = List.replicate (n + 1) 0 ∧
     (calculate_lattices V K T sigma 0 r n none).deltas.getD n 0 = 0) := by
  have hman : (calculate_lattices V K T sigma delta r n (some l)).deltas = l ++ [1] :=
    deltasOf_manual_match delta n l hl
  have hauto : (calculate_lattices V K T sigma 0 r n none).deltas
      = List.replicate (n + 1) 0 := by
    rw [show (calculate_lattices V K T sigma 0 r n none).deltas
        = deltasOf 0 n none from rfl, deltasOf_none]
    exact autoDeltas_of_nonpos 0 n (by omega) (by norm_num)
  refine ⟨⟨hman, ?_, ?_⟩, hauto, ?_⟩
  · rw [hman]
    simp [hl]
  · rw [hman, List.getD_append_right l [1] 0 n (le_of_eq hl), hl]
    simp
  · rw [hauto]
    exact getD_replicate_zero (n + 1) n (Nat.lt_succ_self n)

theorem C3_terminal_delta_asymmetry_witness :
    ((calculate_lattices 1 1 2 1 5 1 2 (some [3, 4])).deltas = [3, 4] ++ [1] ∧
     (calculate_lattices 1 1 2 1 5 1 2 (some [3, 4])).deltas.length = 2 + 1 ∧
     (calculate_lattices 1 1 2 1 5 1 2 (some [3, 4])).deltas.getD 2 0 = 1) ∧
    ((calculate_lattices 1 1 2 1 0 1 2 none).deltas = List.replicate (2 + 1) 0 ∧
     (calculate_lattices 1 1 2 1 0 1 2 none).deltas.getD 2 0 = 0) :=
  C3_terminal_delta_asymmetry 1 1 2 1 5 1 2 (by norm_num) [3, 4] rfl

/-- C10: silent manual-mode fallback.  A supplied manual sequence whose
length differs from `n` is ignored entirely: `calculate_lattices` behaves
exactly as with no manual sequence, deriving the schedule from the scalar
delta by the auto-mode rule (no terminal `1.0` is appended to the supplied
values); the `/calculate` route passes, as that scalar, the sequence's first
entry (or `0.0` if the sequence is empty), and raises no error. -/
theorem C10_manual_mode_fallback (req : CalcRequest) (dm : List ℝ)
    (hmode : req.deltaMode = DeltaMode.manual)
    (hparse : parseManualTokens req.deltaTokens = some dm)
    (hlen : dm.length ≠ (routeN req.T).toNat) (hT : 1 ≤ routeN req.T) :
    (∀ V K T sigma delta r n (l : List ℝ), l.length ≠ n →
      calculate_lattices V K T sigma delta r n (some l)
        = calculate_lattices V K T sigma delta r n none) ∧
    calculate req = Except.ok
      ⟨routeN req.T,
        calculate_lattices (req.V * 1000) (req.K * 1000) req.T req.sigma (dm.headD 0)
          req.r (routeN req.T).toNat none,
        round4 ((calculate_lattices (req.V * 1000) (req.K * 1000) req.T req.sigma
          (dm.headD 0) req.r (routeN req.T).toNat none).C 0 0 / 1000)⟩ ∧
    (calculate_lattices (req.V * 1000) (req.K * 1000) req.T req.sigma (dm.headD 0)
        req.r (routeN req.T).toNat (some dm)).deltas
      = autoDeltas (dm.headD 0) (routeN req.T).toNat := by
  refine ⟨fun V K T sigma delta r n l h => calculate_lattices_mismatch V K T sigma delta r n l h,
    ?_, deltasOf_manual_mismatch _ _ _ hlen⟩
  rw [calculate, hmode]
  simp only [hparse]
  rw [buildResponse, if_pos hT, calculate_lattices_mismatch _ _ _ _ _ _ _ _ hlen]

theorem C10_manual_mode_fallback_witness :
    (∀ V K T sigma delta r n (l : List ℝ), l.length ≠ n →
      calculate_lattices V K T sigma delta r n (some l)
        = calculate_lattices V K T sigma delta r n none) ∧
    calculate ⟨1, 1, 2, 0, 0, DeltaMode.manual, 0, [some 5]⟩ = Except.ok
      ⟨routeN (2 : ℝ),
        calculate_lattices (1 * 1000) (1 * 1000) 2 0 (([(5 : ℝ)]).headD 0) 0
          (routeN (2 : ℝ)).toNat none,
        round4 ((calculate_lattices (1 * 1000) (1 * 1000) 2 0 (([(5 : ℝ)]).headD 0) 0
          (routeN (2 : ℝ)).toNat none).C 0 0 / 1000)⟩ ∧
    (calculate_lattices (1 * 1000) (1 * 1000) 2 0 (([(5 : ℝ)]).headD 0) 0
        (routeN (2 : ℝ)).toNat (some [5])).deltas
      = autoDeltas (([(5 : ℝ)]).headD 0) (routeN (2 : ℝ)).toNat := by
  have h2 : routeN (2 : ℝ) = 2 := by
    rw [routeN, pyTrunc, if_pos (by norm_num : (0 : ℝ) ≤ 2)]
    norm_num
  refine C10_manual_mode_fallback ⟨1, 1, 2, 0, 0, DeltaMode.manual, 0, [some 5]⟩ [5] rfl rfl ?_ ?_
  · rw [h2]
    decide
  · rw [h2]
    decide

/-- C8: a manual-mode `/calculate` request whose cost-of-delay sequence
contains a non-numeric entry returns the input-validation error
`"Manual Cost of Delay values must be valid numbers."` with HTTP status 400
and produces no other output. -/
theorem C8_manual_validation_error (req : CalcRequest)
    (hmode : req.deltaMode = DeltaMode.manual) (hbad : none ∈ req.deltaTokens) :
    calculate req
      = Except.error ("Manual Cost of Delay values must be valid numbers.", 400) := by
  rw [calculate, hmode]
  simp only [parseManualTokens_of_mem_none _ hbad]

theorem C8_manual_validation_error_witness :
    calculate ⟨1, 1, 1, 0, 0, DeltaMode.manual, 0, [some 2, none]⟩
      = Except.error ("Manual Cost of Delay values must be valid numbers.", 400) :=
  C8_manual_validation_error ⟨1, 1, 1, 0, 0, DeltaMode.manual, 0, [some 2, none]⟩ rfl
    (by simp)

/-- C4 counterexample: at `T = -1` the `/calculate` route computes
`n = int(T) = -1` (nonzero, so the `n == 0` fix does not fire), which is not
`max(1, floor(T)) = 1`. -/
theorem C4_period_count_counterexample :
    routeN (-1) = -1 ∧ routeN (-1) ≠ max 1 ⌊(-1 : ℝ)⌋ := by
  have h : routeN (-1) = -1 := by
    have hc : ⌈(-1 : ℝ)⌉ = -1 := by
      rw [show (-1 : ℝ) = ((-1 : ℤ) : ℝ) by norm_num, Int.ceil_intCast]
    rw [routeN, pyTrunc, if_neg (by norm_num : ¬(0 : ℝ) ≤ -1), hc]
    norm_num
  refine ⟨h, ?_⟩
  rw [h]
  norm_num

/-- C4 (amended): for every request with `T > -1`, the period count used by
the `/calculate` route equals `max(1, floor(T))`; in particular every such
request with `T < 1` gets exactly one period. -/
theorem C4_period_count (T : ℝ) (hT : -1 < T) :
    routeN T = max 1 ⌊T⌋ ∧ (T < 1 → routeN T = 1) := by
  rcases le_or_lt 0 T with h0 | h0
  · have htr : pyTrunc T = ⌊T⌋ := if_pos h0
    have hfl : 0 ≤ ⌊T⌋ := Int.floor_nonneg.2 h0
    constructor
    · rw [routeN, htr]
      by_cases hz : ⌊T⌋ = 0
      · rw [if_pos hz, hz]
        simp
      · rw [if_neg hz, max_eq_right (by omega)]
    · intro h1
      have : ⌊T⌋ < 1 := Int.floor_lt.2 (by exact_mod_cast h1)
      have hz : ⌊T⌋ = 0 := by omega
      rw [routeN, htr, if_pos hz]
  · have htr : pyTrunc T = ⌈T⌉ := if_neg (not_le.2 h0)
    have hc0 : ⌈T⌉ = 0 := by
      have h1 : ⌈T⌉ ≤ 0 := Int.ceil_le.2 (by exact_mod_cast h0.le)
      have h2 : (-1 : ℤ) < ⌈T⌉ := by
        rw [Int.lt_ceil]
        exact_mod_cast hT
      omega
    have hf : ⌊T⌋ ≤ 0 := le_trans (Int.floor_le_ceil T) (le_of_eq hc0)
    constructor
    · rw [routeN, htr, if_pos hc0, max_eq_left (by omega)]
    · intro _
      rw [routeN, htr, if_pos hc0]

theorem C4_period_count_witness :
    routeN (1 / 2 : ℝ) = max 1 ⌊(1 / 2 : ℝ)⌋ ∧ ((1 / 2 : ℝ) < 1 → routeN (1 / 2 : ℝ) = 1) :=
  C4_period_count (1 / 2) (by norm_num)

theorem get_C0_periods_eq (T : ℝ) : get_C0_periods T = max 1 ⌊T⌋ := by
  rw [get_C0_periods, pyTrunc]
  rcases le_or_lt 0 T with h0 | h0
  · rw [if_pos h0]
  · rw [if_neg (not_le.2 h0)]
    have h1 : ⌈T⌉ ≤ 0 := Int.ceil_le.2 (by exact_mod_cast h0.le)
    have h2 : ⌊T⌋ ≤ 0 := le_trans (Int.floor_le_ceil T) h1
    rw [max_eq_left (by omega), max_eq_left (by omega)]

/-- C2: the sensitivity helper `get_C0` ignores the period count passed by
its caller and recomputes it from `T` alone as `max(1, floor(T))`; hence
every tornado/spider/line-chart evaluation that keeps `T` (any helper call
at maturity `T`) uses the base valuation's period count, while the two
`T`-perturbation evaluations use `max(1, floor(T·0.9))` and
`max(1, floor(T·1.1))`. -/
theorem C2_period_recomputation (V K T sigma delta r nOne nTwo : ℝ) :
    (get_C0 V K T sigma delta r nOne = get_C0 V K T sigma delta r nTwo) ∧
    (get_C0_periods T = max 1 ⌊T⌋) ∧
    (∀ V' K' sigma' delta' r' nArg,
      get_C0 V' K' T sigma' delta' r' nArg
        = (calculate_lattices V' K' T sigma' delta' r' (max 1 ⌊T⌋).toNat none).C 0 0 / 1000) ∧
    (sensEval V K T sigma delta r nOne SensParam.T 0.9
        = (calculate_lattices V K (T * 0.9) sigma delta r
            (max 1 ⌊T * 0.9⌋).toNat none).C 0 0 / 1000) ∧
    (sensEval V K T sigma delta r nOne SensParam.T 1.1
        = (calculate_lattices V K (T * 1.1) sigma delta r
            (max 1 ⌊T * 1.1⌋).toNat none).C 0 0 / 1000) ∧
    (∀ p : SensParam, p ≠ SensParam.T → ∀ factor : ℝ,
      ∃ V' K' sigma' delta' r',
        sensEval V K T sigma delta r nOne p factor
          = (calculate_lattices V' K' T sigma' delta' r'
              (max 1 ⌊T⌋).toNat none).C 0 0 / 1000) ∧
    (∀ factor s,
      round2 (get_C0 (V * factor) K T s delta r nOne)
        = round2 ((calculate_lattices (V * factor) K T s delta r
            (max 1 ⌊T⌋).toNat none).C 0 0 / 1000)) := by
  have hgen : ∀ (V' K' sigma' delta' r' nArg : ℝ),
      get_C0 V' K' T sigma' delta' r' nArg
        = (calculate_lattices V' K' T sigma' delta' r' (max 1 ⌊T⌋).toNat none).C 0 0 / 1000 := by
    intro V' K' sigma' delta' r' nArg
    rw [get_C0, get_C0_periods_eq]
  refine ⟨rfl, get_C0_periods_eq T, hgen, ?_, ?_, ?_, ?_⟩
  · rw [sensEval, get_C0, get_C0_periods_eq]
  · rw [sensEval, get_C0, get_C0_periods_eq]
  · intro p hp factor
    cases p with
    | V => exact ⟨V * factor, K, sigma, delta, r, hgen (V * factor) K sigma delta r nOne⟩
    | sigma => exact ⟨V, K, sigma * factor, delta, r, hgen V K (sigma * factor) delta r nOne⟩
    | T => exact absurd rfl hp
    | K => exact ⟨V, K * factor, sigma, delta, r, hgen V (K * factor) sigma delta r nOne⟩
    | delta => exact ⟨V, K, sigma, delta * factor, r, hgen V K sigma (delta * factor) r nOne⟩
    | r => exact ⟨V, K, sigma, delta, r * factor, hgen V K sigma delta (r * factor) nOne⟩
  · intro factor s
    rw [hgen]

theorem C2_period_recomputation_witness :
    (get_C0 10 20 3 1 0 1 7 = get_C0 10 20 3 1 0 1 8) ∧
    (get_C0_periods 3 = max 1 ⌊(3 : ℝ)⌋) ∧
    (∀ V' K' sigma' delta' r' nArg,
      get_C0 V' K' (3 : ℝ) sigma' delta' r' nArg
        = (calculate_lattices V' K' 3 sigma' delta' r'
            (max 1 ⌊(3 : ℝ)⌋).toNat none).C 0 0 / 1000) ∧
    (sensEval 10 20 3 1 0 1 7 SensParam.T 0.9
        = (calculate_lattices 10 20 (3 * 0.9) 1 0 1
            (max 1 ⌊(3 : ℝ) * 0.9⌋).toNat none).C 0 0 / 1000) ∧
    (sensEval 10 20 3 1 0 1 7 SensParam.T 1.1
        = (calculate_lattices 10 20 (3 * 1.1) 1 0 1
            (max 1 ⌊(3 : ℝ) * 1.1⌋).toNat none).C 0 0 / 1000) ∧
    (∀ p : SensParam, p ≠ SensParam.T → ∀ factor : ℝ,
      ∃ V' K' sigma' delta' r',
        sensEval 10 20 3 1 0 1 7 p factor
          = (calculate_lattices V' K' 3 sigma' delta' r'
              (max 1 ⌊(3 : ℝ)⌋).toNat none).C 0 0 / 1000) ∧
    (∀ factor s,
      round2 (get_C0 (10 * factor) 20 3 s 0 1 7)
        = round2 ((calculate_lattices (10 * factor) 20 3 s 0 1
            (max 1 ⌊(3 : ℝ)⌋).toNat none).C 0 0 / 1000)) :=
  C2_period_recomputation 10 20 3 1 0 1 7 8

/-- C6: for every base parameter set and each perturbed parameter, the
spider percentage is `max(|max_C - base|, |min_C - base|) / base · 100`
rounded to two decimals when the base option value is nonzero, and exactly
`0` when the base option value is zero: the division is guarded by the
zero test and is unreachable in that case. -/
theorem C6_spider_guard (V K T sigma delta r nArg : ℝ) (p : SensParam) :
    (get_C0 V K T sigma delta r nArg = 0 → spiderPercent V K T sigma delta r nArg p = 0) ∧
    (get_C0 V K T sigma delta r nArg ≠ 0 →
      spiderPercent V K T sigma delta r nArg p
        = round2
            (max
                |max (sensEval V K T sigma delta r nArg p 0.9)
                    (sensEval V K T sigma delta r nArg p 1.1) -
                  get_C0 V K T sigma delta r nArg|
                |min (sensEval V K T sigma delta r nArg p 0.9)
                    (sensEval V K T sigma delta r nArg p 1.1) -
                  get_C0 V K T sigma delta r nArg| /
              get_C0 V K T sigma delta r nArg * 100)) := by
  constructor
  · intro h
    rw [spiderPercent, if_pos h, round2]
    norm_num
  · intro h
    rw [spiderPercent, if_neg h]

theorem C6_spider_guard_witness :
    spiderPercent 0 5 1 1 1 1 1 SensParam.V = 0 := by
  have hA : ∀ i j, assetLattice 0 1 1 1 i j = 0 := by
    intro i j
    rw [assetLattice, zero_mul, zero_mul]
  have hN : ∀ i j, exerciseLattice 0 5 1 1 1 i j = 0 := by
    intro i j
    rw [exerciseLattice, hA]
    norm_num
  have hper : (get_C0_periods 1).toNat = 1 := by
    rw [get_C0_periods_eq]
    norm_num
  have hbase : get_C0 0 5 1 1 1 1 1 = 0 := by
    rw [get_C0, hper]
    have hb0 : (calculate_lattices 0 5 1 1 1 1 1 none).C 0 1 = 0 := by
      rw [show (calculate_lattices 0 5 1 1 1 1 1 none).C
          = optionLattice 0 5 1 1 1 1 1 none from rfl,
        optionLattice_boundary 0 5 1 1 1 1 1 none 0 (by omega), hN]
    have hb1 : (calculate_lattices 0 5 1 1 1 1 1 none).C 1 1 = 0 := by
      rw [show (calculate_lattices 0 5 1 1 1 1 1 none).C
          = optionLattice 0 5 1 1 1 1 1 none from rfl,
        optionLattice_boundary 0 5 1 1 1 1 1 none 1 (by omega), hN]
    have hc : (calculate_lattices 0 5 1 1 1 1 1 none).C 0 0 = 0 := by
      rw [show (calculate_lattices 0 5 1 1 1 1 1 none).C
          = optionLattice 0 5 1 1 1 1 1 none from rfl,
        optionLattice_rec 0 5 1 1 1 1 1 none 0 (by omega) 0 (by omega)]
      rw [show optionLattice 0 5 1 1 1 1 1 none
          = (calculate_lattices 0 5 1 1 1 1 1 none).C from rfl, hb0, hb1, hN]
      norm_num
    rw [hc]
    norm_num
  exact (C6_spider_guard 0 5 1 1 1 1 1 SensParam.V).1 hbase

/-- C5: the fully worked `n = 1` scenario `V = 1000`, `K = 900`, `T = 1`,
`sigma = 0`, auto-mode cost-of-delay `0`, `r = 0`: `u = d = 1`, the asset
lattice is `1000` at the evaluated nodes, the exercise value is `100` at
every evaluated node, `discount = 1`, the degenerate probability fallback
gives `p = 0` at every period, `C[0][1] = C[1][1] = 100`, and the root
option value is `C[0][0] = 100` in actual units, i.e. `0.1` after division
by 1000. -/
theorem C5_worked_scenario :
    uFactor 0 1 1 = 1 ∧ dFactor 0 1 1 = 1 ∧
    (calculate_lattices 1000 900 1 0 0 0 1 none).A 0 0 = 1000 ∧
    (calculate_lattices 1000 900 1 0 0 0 1 none).A 0 1 = 1000 ∧
    (calculate_lattices 1000 900 1 0 0 0 1 none).A 1 1 = 1000 ∧
    (calculate_lattices 1000 900 1 0 0 0 1 none).N 0 0 = 100 ∧
    (calculate_lattices 1000 900 1 0 0 0 1 none).N 0 1 = 100 ∧
    (calculate_lattices 1000 900 1 0 0 0 1 none).N 1 1 = 100 ∧
    discountOf 0 1 1 = 1 ∧
    (calculate_lattices 1000 900 1 0 0 0 1 none).ps = [0, 0] ∧
    (calculate_lattices 1000 900 1 0 0 0 1 none).C 0 1 = 100 ∧
    (calculate_lattices 1000 900 1 0 0 0 1 none).C 1 1 = 100 ∧
    (calculate_lattices 1000 900 1 0 0 0 1 none).C 0 0 = 100 ∧
    (calculate_lattices 1000 900 1 0 0 0 1 none).C 0 0 / 1000 = 0.1 := by
  have hu : uFactor 0 1 1 = 1 := by
    rw [uFactor, zero_mul, Real.exp_zero]
  have hd : dFactor 0 1 1 = 1 := by
    rw [dFactor, hu]
    norm_num
  have hA : ∀ i j, assetLattice 1000 0 1 1 i j = 1000 := by
    intro i j
    rw [assetLattice, hu, hd, one_zpow, one_pow, mul_one, mul_one]
  have hN : ∀ i j, exerciseLattice 1000 900 0 1 1 i j = 100 := by
    intro i j
    rw [exerciseLattice, hA]
    norm_num
  have hdisc : discountOf 0 1 1 = 1 := by
    rw [discountOf, neg_zero, zero_mul, Real.exp_zero]
  have hps : psOf 1 0 0 0 1 none = [0, 0] := by
    rw [psOf, show List.range 2 = [0, 1] from rfl]
    simp [hu.trans hd.symm]
  have hC1 : ∀ i ≤ 1, (calculate_lattices 1000 900 1 0 0 0 1 none).C i 1 = 100 := by
    intro i hi
    rw [show (calculate_lattices 1000 900 1 0 0 0 1 none).C
        = optionLattice 1000 900 1 0 0 0 1 none from rfl,
      optionLattice_boundary 1000 900 1 0 0 0 1 none i hi, hN]
  have hC0 : (calculate_lattices 1000 900 1 0 0 0 1 none).C 0 0 = 100 := by
    rw [show (calculate_lattices 1000 900 1 0 0 0 1 none).C
        = optionLattice 1000 900 1 0 0 0 1 none from rfl,
      optionLattice_rec 1000 900 1 0 0 0 1 none 0 (by omega) 0 (by omega), hdisc, hps]
    rw [show optionLattice 1000 900 1 0 0 0 1 none
        = (calculate_lattices 1000 900 1 0 0 0 1 none).C from rfl,
      hC1 0 (by omega), hC1 1 (by omega), hN]
    norm_num
  refine ⟨hu, hd, hA 0 0, hA 0 1, hA 1 1, hN 0 0, hN 0 1, hN 1 1, hdisc, hps,
    hC1 0 (by omega), hC1 1 (by omega), hC0, ?_⟩
  rw [hC0]
  norm_num

/-- C7 (amended): with `(K, T, sigma, delta, r, n)` and the cost-of-delay
input held fixed, and provided every per-period probability actually
consumed by the induction lies in `[0, 1]`, increasing the asset value `V`
never decreases the root option value `C[0][0]`. -/
theorem C7_monotone_in_V (K T sigma delta r : ℝ) (n : ℕ) (dm : Option (List ℝ)) (hn : 1 ≤ n)
    (hp : ∀ j < n, 0 ≤ (psOf T sigma delta r n dm).getD j 0 ∧
      (psOf T sigma delta r n dm).getD j 0 ≤ 1)
    (V1 V2 : ℝ) (hV : V1 ≤ V2) :
    (calculate_lattices V1 K T sigma delta r n dm).C 0 0
      ≤ (calculate_lattices V2 K T sigma delta r n dm).C 0 0 := by
  have hNmono : ∀ i j, exerciseLattice V1 K sigma T n i j ≤ exerciseLattice V2 K sigma T n i j := by
    intro i j
    have hcoef : 0 < uFactor sigma T n ^ ((j : ℤ) - (i : ℤ)) * dFactor sigma T n ^ i := by
      apply mul_pos
      · exact zpow_pos (Real.exp_pos _) _
      · apply pow_pos
        rw [dFactor, uFactor]
        positivity
    apply max_le_max _ (le_refl 0)
    apply sub_le_sub_right
    rw [assetLattice, assetLattice, mul_assoc, mul_assoc]
    exact mul_le_mul_of_nonneg_right hV (le_of_lt hcoef)
  have main : ∀ k j i, j ≤ n → n - j ≤ k → i ≤ j →
      optionLattice V1 K T sigma delta r n dm i j
        ≤ optionLattice V2 K T sigma delta r n dm i j := by
    intro k
    induction k with
    | zero =>
      intro j i hjn hk hij
      have hjn' : j = n := by omega
      rw [hjn'] at hij ⊢
      rw [optionLattice_boundary V1 K T sigma delta r n dm i hij,
        optionLattice_boundary V2 K T sigma delta r n dm i hij]
      exact hNmono i n
    | succ k ih =>
      intro j i hjn hk hij
      rcases eq_or_lt_of_le hjn with hj | hj
      · rw [hj] at hij ⊢
        rw [optionLattice_boundary V1 K T sigma delta r n dm i hij,
          optionLattice_boundary V2 K T sigma delta r n dm i hij]
        exact hNmono i n
      · rw [optionLattice_rec V1 K T sigma delta r n dm j hj i hij,
          optionLattice_rec V2 K T sigma delta r n dm j hj i hij]
        have hc1 := ih (j + 1) i (by omega) (by omega) (by omega)
        have hc2 := ih (j + 1) (i + 1) (by omega) (by omega) (by omega)
        have hpj := hp j hj
        have hdnn : 0 ≤ discountOf r T n := by
          rw [discountOf]
          positivity
        refine max_le_max (mul_le_mul_of_nonneg_left ?_ hdnn) (hNmono i j)
        exact add_le_add (mul_le_mul_of_nonneg_left hc1 hpj.1)
          (mul_le_mul_of_nonneg_left hc2 (by linarith [hpj.2]))
  exact main n 0 0 (by omega) (by omega) (by omega)

theorem C7_monotone_in_V_witness :
    (calculate_lattices 1000 900 1 0 0 0 1 none).C 0 0
      ≤ (calculate_lattices 1100 900 1 0 0 0 1 none).C 0 0 := by
  have hu : uFactor 0 1 1 = 1 := by
    rw [uFactor, zero_mul, Real.exp_zero]
  have hd : dFactor 0 1 1 = 1 := by
    rw [dFactor, hu]
    norm_num
  have hps : psOf 1 0 0 0 1 none = [0, 0] := by
    rw [psOf, show List.range 2 = [0, 1] from rfl]
    simp [hu.trans hd.symm]
  refine C7_monotone_in_V 900 1 0 0 0 1 none (le_refl 1) ?_ 1000 1100 (by norm_num)
  intro j hj
  have hj0 : j = 0 := by omega
  rw [hj0, hps]
  norm_num

/-! ## Numeric bounds used by the monotonicity counterexample -/

theorem calc_C_eq (V K T sigma delta r : ℝ) (n : ℕ) (dm : Option (List ℝ)) :
    (calculate_lattices V K T sigma delta r n dm).C
      = optionLattice V K T sigma delta r n dm := rfl

theorem exp_bound10 (x : ℝ) (hx0 : 0 ≤ x) (hx1 : x ≤ 1) :
    (∑ m ∈ Finset.range 10, x ^ m / m.factorial) - x ^ 10 * (11 / 36288000) ≤ Real.exp x ∧
    Real.exp x ≤ (∑ m ∈ Finset.range 10, x ^ m / m.factorial) + x ^ 10 * (11 / 36288000) := by
  have h := @Real.exp_bound x (by rwa [abs_of_nonneg hx0]) 10 (by norm_num)
  rw [abs_of_nonneg hx0, abs_sub_le_iff] at h
  norm_num [Nat.factorial] at h
  constructor
  · linarith [h.2]
  · linarith [h.1]

theorem exp_one_fifth_bounds :
    (1.2214 : ℝ) ≤ Real.exp (1 / 5) ∧ Real.exp (1 / 5) ≤ 1.22141 := by
  have h := exp_bound10 (1 / 5) (by norm_num) (by norm_num)
  constructor
  · refine le_trans ?_ h.1
    norm_num [Finset.sum_range_succ, Nat.factorial]
  · refine le_trans h.2 ?_
    norm_num [Finset.sum_range_succ, Nat.factorial]

theorem exp_seven_eighths_bounds :
    (2.3988751 : ℝ) ≤ Real.exp (7 / 8) ∧ Real.exp (7 / 8) ≤ 2.3988753 := by
  have h := exp_bound10 (7 / 8) (by norm_num) (by norm_num)
  constructor
  · refine le_trans ?_ h.1
    norm_num [Finset.sum_range_succ, Nat.factorial]
  · refine le_trans h.2 ?_
    norm_num [Finset.sum_range_succ, Nat.factorial]

theorem exp_three_quarters_bounds :
    (2.1169999 : ℝ) ≤ Real.exp (3 / 4) ∧ Real.exp (3 / 4) ≤ 2.1170001 := by
  have h := exp_bound10 (3 / 4) (by norm_num) (by norm_num)
  constructor
  · refine le_trans ?_ h.1
    norm_num [Finset.sum_range_succ, Nat.factorial]
  · refine le_trans h.2 ?_
    norm_num [Finset.sum_range_succ, Nat.factorial]

theorem exp_seven_fourths_bounds :
    (5.754601 : ℝ) ≤ Real.exp (7 / 4) ∧ Real.exp (7 / 4) ≤ 5.754603 := by
  have hs : Real.exp (7 / 4 : ℝ) = Real.exp (7 / 8) * Real.exp (7 / 8) := by
    rw [← Real.exp_add]
    norm_num
  have h1 := exp_seven_eighths_bounds.1
  have h2 := exp_seven_eighths_bounds.2
  constructor
  · rw [hs]
    nlinarith [h1, h2]
  · rw [hs]
    nlinarith [h1, h2]

theorem exp_three_halves_bounds :
    (4.481688 : ℝ) ≤ Real.exp (3 / 2) ∧ Real.exp (3 / 2) ≤ 4.48169 := by
  have hs : Real.exp (3 / 2 : ℝ) = Real.exp (3 / 4) * Real.exp (3 / 4) := by
    rw [← Real.exp_add]
    norm_num
  have h1 := exp_three_quarters_bounds.1
  have h2 := exp_three_quarters_bounds.2
  constructor
  · rw [hs]
    nlinarith [h1, h2]
  · rw [hs]
    nlinarith [h1, h2]

theorem exp_neg_two_bounds :
    (0.1353352 : ℝ) ≤ Real.exp (-2 : ℝ) ∧ Real.exp (-2 : ℝ) ≤ 0.1353353 := by
  have hs : Real.exp (2 : ℝ) = Real.exp 1 * Real.exp 1 := by
    rw [← Real.exp_add]
    norm_num
  have hlo : (7.389056 : ℝ) ≤ Real.exp (2 : ℝ) := by
    rw [hs]
    nlinarith [Real.exp_one_gt_d9]
  have hhi : Real.exp (2 : ℝ) ≤ 7.3890561 := by
    rw [hs]
    nlinarith [Real.exp_one_lt_d9, Real.exp_one_gt_d9]
  have hmul : Real.exp (-2 : ℝ) * Real.exp (2 : ℝ) = 1 := by
    rw [← Real.exp_add]
    norm_num [Real.exp_zero]
  constructor
  · nlinarith [hmul, hhi, (Real.exp_pos (-2 : ℝ)).le]
  · nlinarith [hmul, hlo, (Real.exp_pos (-2 : ℝ)).le]

theorem exp_one_fifth_inv_bounds :
    (0.81872 : ℝ) ≤ (Real.exp (1 / 5))⁻¹ ∧ (Real.exp (1 / 5))⁻¹ ≤ 0.81874 := by
  have hmul : (Real.exp (1 / 5))⁻¹ * Real.exp (1 / 5) = 1 :=
    inv_mul_cancel₀ (Real.exp_pos (1 / 5 : ℝ)).ne'
  have hnn : (0 : ℝ) ≤ (Real.exp (1 / 5))⁻¹ := (inv_pos.2 (Real.exp_pos _)).le
  constructor
  · nlinarith [hmul, hnn, exp_one_fifth_bounds.2]
  · nlinarith [hmul, hnn, exp_one_fifth_bounds.1]

theorem exerciseLattice_n2 (V K sigma T u : ℝ) (hu : uFactor sigma T 2 = u) (hupos : 0 < u) :
    exerciseLattice V K sigma T 2 0 2 = max (V * (u * u) - K) 0 ∧
    exerciseLattice V K sigma T 2 1 2 = max (V - K) 0 ∧
    exerciseLattice V K sigma T 2 2 2 = max (V * (u⁻¹ * u⁻¹) - K) 0 ∧
    exerciseLattice V K sigma T 2 0 1 = max (V * u - K) 0 ∧
    exerciseLattice V K sigma T 2 1 1 = max (V * u⁻¹ - K) 0 ∧
    exerciseLattice V K sigma T 2 0 0 = max (V - K) 0 := by
  have hd : dFactor sigma T 2 = u⁻¹ := by
    rw [dFactor, hu, one_div]
  refine ⟨?_, ?_, ?_, ?_, ?_, ?_⟩
  · rw [exerciseLattice, assetLattice, hu, hd,
      show ((2 : ℕ) : ℤ) - ((0 : ℕ) : ℤ) = ((2 : ℕ) : ℤ) by norm_num,
      zpow_natCast, pow_zero, mul_one, pow_two]
  · rw [exerciseLattice, assetLattice, hu, hd,
      show ((2 : ℕ) : ℤ) - ((1 : ℕ) : ℤ) = ((1 : ℕ) : ℤ) by norm_num,
      zpow_natCast, pow_one, pow_one, mul_assoc, mul_inv_cancel₀ hupos.ne', mul_one]
  · rw [exerciseLattice, assetLattice, hu, hd,
      show ((2 : ℕ) : ℤ) - ((2 : ℕ) : ℤ) = (0 : ℤ) by norm_num,
      zpow_zero, mul_one, pow_two]
  · rw [exerciseLattice, assetLattice, hu, hd,
      show ((1 : ℕ) : ℤ) - ((0 : ℕ) : ℤ) = ((1 : ℕ) : ℤ) by norm_num,
      zpow_natCast, pow_one, pow_zero, mul_one]
  · rw [exerciseLattice, assetLattice, hu, hd,
      show ((1 : ℕ) : ℤ) - ((1 : ℕ) : ℤ) = (0 : ℤ) by norm_num,
      zpow_zero, mul_one, pow_one]
  · rw [exerciseLattice, assetLattice, hu, hd,
      show ((0 : ℕ) : ℤ) - ((0 : ℕ) : ℤ) = (0 : ℤ) by norm_num,
      zpow_zero, mul_one, pow_zero, mul_one]

theorem cex_uFactor : uFactor (1 / 5) 2 2 = Real.exp (1 / 5) := by
  rw [uFactor]
  norm_num [Real.sqrt_one]

theorem cex_dFactor : dFactor (1 / 5) 2 2 = (Real.exp (1 / 5))⁻¹ := by
  rw [dFactor, cex_uFactor, one_div]

theorem cex_u_ne_d : uFactor (1 / 5) 2 2 ≠ dFactor (1 / 5) 2 2 := by
  rw [cex_uFactor, cex_dFactor]
  intro h
  have h1 : Real.exp (1 / 5) * Real.exp (1 / 5)
      = (Real.exp (1 / 5))⁻¹ * Real.exp (1 / 5) := by rw [← h]
  rw [inv_mul_cancel₀ (Real.exp_pos (1 / 5 : ℝ)).ne'] at h1
  nlinarith [exp_one_fifth_bounds.1]

theorem cex_discount : discountOf 2 2 2 = Real.exp (-2 : ℝ) := by
  rw [discountOf]
  norm_num

theorem cex_rpow_half : ((1 : ℝ) / (1 / 4 : ℝ)) ^ ((1 : ℝ) / ((2 : ℕ) : ℝ)) = 2 := by
  rw [show ((1 : ℝ) / (1 / 4 : ℝ)) = (2 : ℝ) ^ (2 : ℕ) by norm_num,
    show ((1 : ℝ) / ((2 : ℕ) : ℝ)) = (2 : ℝ)⁻¹ by norm_num,
    ← Real.rpow_natCast (2 : ℝ) 2, ← Real.rpow_mul (by norm_num : (0 : ℝ) ≤ 2)]
  rw [show ((2 : ℕ) : ℝ) * (2 : ℝ)⁻¹ = 1 by norm_num, Real.rpow_one]

theorem cex_deltas : deltasOf (1 / 4) 2 none = [1 / 4, 1 / 2, 1] := by
  rw [show deltasOf (1 / 4 : ℝ) 2 none = autoDeltas (1 / 4) 2 from rfl, autoDeltas,
    if_pos (⟨by norm_num, by norm_num⟩ : (0 < 2 ∧ (0 : ℝ) < 1 / 4)),
    show List.range 3 = [0, 1, 2] from rfl]
  simp only [List.map_cons, List.map_nil]
  rw [cex_rpow_half]
  norm_num

theorem cex_ps0 : (psOf 2 (1 / 5) (1 / 4) 2 2 none).getD 0 0
    = (Real.exp (7 / 4) - (Real.exp (1 / 5))⁻¹) /
        (Real.exp (1 / 5) - (Real.exp (1 / 5))⁻¹) := by
  rw [psOf, show List.range 3 = [0, 1, 2] from rfl]
  simp only [List.map_cons, List.map_nil, List.getD_cons_zero]
  rw [if_pos cex_u_ne_d, cex_uFactor, cex_dFactor, cex_deltas,
    show (([(1 : ℝ) / 4, 1 / 2, 1]).getD 0 0) = 1 / 4 from rfl,
    show ((2 : ℝ) - 1 / 4) * ((2 : ℝ) / ((2 : ℕ) : ℝ)) = 7 / 4 by norm_num]

theorem cex_ps1 : (psOf 2 (1 / 5) (1 / 4) 2 2 none).getD 1 0
    = (Real.exp (3 / 2) - (Real.exp (1 / 5))⁻¹) /
        (Real.exp (1 / 5) - (Real.exp (1 / 5))⁻¹) := by
  rw [psOf, show List.range 3 = [0, 1, 2] from rfl]
  simp only [List.map_cons, List.map_nil, List.getD_cons_succ, List.getD_cons_zero]
  rw [if_pos cex_u_ne_d, cex_uFactor, cex_dFactor, cex_deltas,
    show (([(1 : ℝ) / 4, 1 / 2, 1]).getD 1 0) = 1 / 2 from rfl,
    show ((2 : ℝ) - 1 / 2) * ((2 : ℝ) / ((2 : ℕ) : ℝ)) = 3 / 2 by norm_num]

theorem cex_P0_bounds :
    (12.25 : ℝ) ≤ (Real.exp (7 / 4) - (Real.exp (1 / 5))⁻¹) /
        (Real.exp (1 / 5) - (Real.exp (1 / 5))⁻¹) ∧
    (Real.exp (7 / 4) - (Real.exp (1 / 5))⁻¹) /
        (Real.exp (1 / 5) - (Real.exp (1 / 5))⁻¹) ≤ 12.26 := by
  have hW1 : (0.40266 : ℝ) ≤ Real.exp (1 / 5) - (Real.exp (1 / 5))⁻¹ := by
    linarith [exp_one_fifth_bounds.1, exp_one_fifth_inv_bounds.2]
  have hW2 : Real.exp (1 / 5) - (Real.exp (1 / 5))⁻¹ ≤ 0.40269 := by
    linarith [exp_one_fifth_bounds.2, exp_one_fifth_inv_bounds.1]
  have hWpos : (0 : ℝ) < Real.exp (1 / 5) - (Real.exp (1 / 5))⁻¹ := by linarith
  constructor
  · rw [le_div_iff hWpos]
    linarith [hW2, exp_seven_fourths_bounds.1, exp_one_fifth_inv_bounds.2]
  · rw [div_le_iff hWpos]
    linarith [hW1, exp_seven_fourths_bounds.2, exp_one_fifth_inv_bounds.1]

theorem cex_P1_bounds :
    (9.09 : ℝ) ≤ (Real.exp (3 / 2) - (Real.exp (1 / 5))⁻¹) /
        (Real.exp (1 / 5) - (Real.exp (1 / 5))⁻¹) ∧
    (Real.exp (3 / 2) - (Real.exp (1 / 5))⁻¹) /
        (Real.exp (1 / 5) - (Real.exp (1 / 5))⁻¹) ≤ 9.10 := by
  have hW1 : (0.40266 : ℝ) ≤ Real.exp (1 / 5) - (Real.exp (1 / 5))⁻¹ := by
    linarith [exp_one_fifth_bounds.1, exp_one_fifth_inv_bounds.2]
  have hW2 : Real.exp (1 / 5) - (Real.exp (1 / 5))⁻¹ ≤ 0.40269 := by
    linarith [exp_one_fifth_bounds.2, exp_one_fifth_inv_bounds.1]
  have hWpos : (0 : ℝ) < Real.exp (1 / 5) - (Real.exp (1 / 5))⁻¹ := by linarith
  constructor
  · rw [le_div_iff hWpos]
    linarith [hW2, exp_three_halves_bounds.1, exp_one_fifth_inv_bounds.2]
  · rw [div_le_iff hWpos]
    linarith [hW1, exp_three_halves_bounds.2, exp_one_fifth_inv_bounds.1]

set_option maxHeartbeats 1000000 in
/-- C7 counterexample: with `K = 100`, `T = 2`, `sigma = 0.2`, auto-mode
scalar cost-of-delay `0.25`, `r = 2` and `n = 2` held fixed, the root option
value at `V = 102` strictly exceeds the one at `V = 120`, so increasing the
asset value from 102 to 120 strictly decreases the root option value (the
per-period probabilities exceed 1 here, breaking monotonicity). -/
theorem C7_monotonicity_counterexample :
    (102 : ℝ) ≤ 120 ∧
    ¬ ((calculate_lattices 102 100 2 (1 / 5) (1 / 4) 2 2 none).C 0 0
        ≤ (calculate_lattices 120 100 2 (1 / 5) (1 / 4) 2 2 none).C 0 0) := by
  refine ⟨by norm_num, not_le.2 ?_⟩
  rw [calc_C_eq, calc_C_eq]
  obtain ⟨D, hDdef, hD1, hD2⟩ :
      ∃ x, Real.exp (-2 : ℝ) = x ∧ (0.1353352 : ℝ) ≤ x ∧ x ≤ 0.1353353 :=
    ⟨_, rfl, exp_neg_two_bounds.1, exp_neg_two_bounds.2⟩
  obtain ⟨P0, hP0def, hP01, hP02⟩ :
      ∃ x, (Real.exp (7 / 4) - (Real.exp (1 / 5))⁻¹) /
          (Real.exp (1 / 5) - (Real.exp (1 / 5))⁻¹) = x ∧ (12.25 : ℝ) ≤ x ∧ x ≤ 12.26 :=
    ⟨_, rfl, cex_P0_bounds.1, cex_P0_bounds.2⟩
  obtain ⟨P1, hP1def, hP11, hP12⟩ :
      ∃ x, (Real.exp (3 / 2) - (Real.exp (1 / 5))⁻¹) /
          (Real.exp (1 / 5) - (Real.exp (1 / 5))⁻¹) = x ∧ (9.09 : ℝ) ≤ x ∧ x ≤ 9.10 :=
    ⟨_, rfl, cex_P1_bounds.1, cex_P1_bounds.2⟩
  have hdisc : discountOf 2 2 2 = D := cex_discount.trans hDdef
  have hps0 : (psOf 2 (1 / 5) (1 / 4) 2 2 none).getD 0 0 = P0 := cex_ps0.trans hP0def
  have hps1 : (psOf 2 (1 / 5) (1 / 4) 2 2 none).getD 1 0 = P1 := cex_ps1.trans hP1def
  have hE1 := exp_one_fifth_bounds.1
  have hE2 := exp_one_fifth_bounds.2
  have hEi1 := exp_one_fifth_inv_bounds.1
  have hEi2 := exp_one_fifth_inv_bounds.2
  have hNa := exerciseLattice_n2 102 100 (1 / 5) 2 (Real.exp (1 / 5)) cex_uFactor (Real.exp_pos _)
  have hNb := exerciseLattice_n2 120 100 (1 / 5) 2 (Real.exp (1 / 5)) cex_uFactor (Real.exp_pos _)
  obtain ⟨q1, hq1def, hq11, hq12⟩ :
      ∃ x, 102 * (Real.exp (1 / 5) * Real.exp (1 / 5)) - 100 = x ∧
        (52.164 : ℝ) ≤ x ∧ x ≤ 52.169 :=
    ⟨_, rfl, by nlinarith only [hE1, hE2], by nlinarith only [hE1, hE2]⟩
  obtain ⟨q2, hq2def, hq21, hq22⟩ :
      ∃ x, 120 * (Real.exp (1 / 5) * Real.exp (1 / 5)) - 100 = x ∧
        (79.017 : ℝ) ≤ x ∧ x ≤ 79.023 :=
    ⟨_, rfl, by nlinarith only [hE1, hE2], by nlinarith only [hE1, hE2]⟩
  obtain ⟨m1, hm1def, hm11, hm12⟩ :
      ∃ x, 102 * Real.exp (1 / 5) - 100 = x ∧ (24.58 : ℝ) ≤ x ∧ x ≤ 24.585 :=
    ⟨_, rfl, by nlinarith only [hE1], by nlinarith only [hE2]⟩
  obtain ⟨m2, hm2def, hm21, hm22⟩ :
      ∃ x, 120 * Real.exp (1 / 5) - 100 = x ∧ (46.56 : ℝ) ≤ x ∧ x ≤ 46.57 :=
    ⟨_, rfl, by nlinarith only [hE1], by nlinarith only [hE2]⟩
  have hN02a : exerciseLattice 102 100 (1 / 5) 2 2 0 2 = q1 := by
    rw [hNa.1, max_eq_left (by nlinarith only [hE1] :
      (0 : ℝ) ≤ 102 * (Real.exp (1 / 5) * Real.exp (1 / 5)) - 100)]
    exact hq1def
  have hN12a : exerciseLattice 102 100 (1 / 5) 2 2 1 2 = 2 := by
    rw [hNa.2.1, max_eq_left (by norm_num : (0 : ℝ) ≤ (102 : ℝ) - 100)]
    norm_num
  have hN22a : exerciseLattice 102 100 (1 / 5) 2 2 2 2 = 0 := by
    rw [hNa.2.2.1]
    exact max_eq_right (by nlinarith only [hEi1, hEi2])
  have hN01a : exerciseLattice 102 100 (1 / 5) 2 2 0 1 = m1 := by
    rw [hNa.2.2.2.1, max_eq_left (by nlinarith only [hE1] :
      (0 : ℝ) ≤ 102 * Real.exp (1 / 5) - 100)]
    exact hm1def
  have hN11a : exerciseLattice 102 100 (1 / 5) 2 2 1 1 = 0 := by
    rw [hNa.2.2.2.2.1]
    exact max_eq_right (by nlinarith only [hEi2])
  have hN00a : exerciseLattice 102 100 (1 / 5) 2 2 0 0 = 2 := by
    rw [hNa.2.2.2.2.2, max_eq_left (by norm_num : (0 : ℝ) ≤ (102 : ℝ) - 100)]
    norm_num
  have hN02b : exerciseLattice 120 100 (1 / 5) 2 2 0 2 = q2 := by
    rw [hNb.1, max_eq_left (by nlinarith only [hE1] :
      (0 : ℝ) ≤ 120 * (Real.exp (1 / 5) * Real.exp (1 / 5)) - 100)]
    exact hq2def
  have hN12b : exerciseLattice 120 100 (1 / 5) 2 2 1 2 = 20 := by
    rw [hNb.2.1, max_eq_left (by norm_num : (0 : ℝ) ≤ (120 : ℝ) - 100)]
    norm_num
  have hN22b : exerciseLattice 120 100 (1 / 5) 2 2 2 2 = 0 := by
    rw [hNb.2.2.1]
    exact max_eq_right (by nlinarith only [hEi1, hEi2])
  have hN01b : exerciseLattice 120 100 (1 / 5) 2 2 0 1 = m2 := by
    rw [hNb.2.2.2.1, max_eq_left (by nlinarith only [hE1] :
      (0 : ℝ) ≤ 120 * Real.exp (1 / 5) - 100)]
    exact hm2def
  have hN11b : exerciseLattice 120 100 (1 / 5) 2 2 1 1 = 0 := by
    rw [hNb.2.2.2.2.1]
    exact max_eq_right (by nlinarith only [hEi2])
  have hN00b : exerciseLattice 120 100 (1 / 5) 2 2 0 0 = 20 := by
    rw [hNb.2.2.2.2.2, max_eq_left (by norm_num : (0 : ℝ) ≤ (120 : ℝ) - 100)]
    norm_num
  obtain ⟨B1, hB1def, hB11, hB12⟩ :
      ∃ x, D * (P1 * 2 + (1 - P1) * 0) = x ∧ (2.46 : ℝ) ≤ x ∧ x ≤ 2.47 :=
    ⟨_, rfl, by nlinarith only [hD1, hD2, hP11, hP12], by nlinarith only [hD1, hD2, hP11, hP12]⟩
  have hO11a : optionLattice 102 100 2 (1 / 5) (1 / 4) 2 2 none 1 1 = B1 := by
    rw [optionLattice_rec 102 100 2 (1 / 5) (1 / 4) 2 2 none 1 (by omega) 1 (by omega),
      hdisc, hps1,
      optionLattice_boundary 102 100 2 (1 / 5) (1 / 4) 2 2 none 1 (by omega),
      optionLattice_boundary 102 100 2 (1 / 5) (1 / 4) 2 2 none 2 (by omega),
      hN12a, hN22a, hN11a,
      max_eq_left (by nlinarith only [hD1, hP11] : (0 : ℝ) ≤ D * (P1 * 2 + (1 - P1) * 0))]
    exact hB1def
  have hIa1 : (457.9 : ℝ) ≤ P1 * q1 + (1 - P1) * 2 := by
    nlinarith only [hP11, hP12, hq11, hq12]
  have hIa2 : P1 * q1 + (1 - P1) * 2 ≤ 458.6 := by
    nlinarith only [hP11, hP12, hq11, hq12]
  obtain ⟨A1, hA1def, hA11, hA12⟩ :
      ∃ x, D * (P1 * q1 + (1 - P1) * 2) = x ∧ (61.9 : ℝ) ≤ x ∧ x ≤ 62.1 :=
    ⟨_, rfl, by nlinarith only [hD1, hD2, hIa1, hIa2], by nlinarith only [hD1, hD2, hIa1, hIa2]⟩
  have hO01a : optionLattice 102 100 2 (1 / 5) (1 / 4) 2 2 none 0 1 = A1 := by
    rw [optionLattice_rec 102 100 2 (1 / 5) (1 / 4) 2 2 none 1 (by omega) 0 (by omega),
      hdisc, hps1,
      optionLattice_boundary 102 100 2 (1 / 5) (1 / 4) 2 2 none 0 (by omega),
      optionLattice_boundary 102 100 2 (1 / 5) (1 / 4) 2 2 none 1 (by omega),
      hN02a, hN12a, hN01a,
      max_eq_left (by nlinarith only [hD1, hIa1, hm12] :
        m1 ≤ D * (P1 * q1 + (1 - P1) * 2))]
    exact hA1def
  obtain ⟨B2, hB2def, hB21, hB22⟩ :
      ∃ x, D * (P1 * 20 + (1 - P1) * 0) = x ∧ (24.6 : ℝ) ≤ x ∧ x ≤ 24.7 :=
    ⟨_, rfl, by nlinarith only [hD1, hD2, hP11, hP12], by nlinarith only [hD1, hD2, hP11, hP12]⟩
  have hO11b : optionLattice 120 100 2 (1 / 5) (1 / 4) 2 2 none 1 1 = B2 := by
    rw [optionLattice_rec 120 100 2 (1 / 5) (1 / 4) 2 2 none 1 (by omega) 1 (by omega),
      hdisc, hps1,
      optionLattice_boundary 120 100 2 (1 / 5) (1 / 4) 2 2 none 1 (by omega),
      optionLattice_boundary 120 100 2 (1 / 5) (1 / 4) 2 2 none 2 (by omega),
      hN12b, hN22b, hN11b,
      max_eq_left (by nlinarith only [hD1, hP11] : (0 : ℝ) ≤ D * (P1 * 20 + (1 - P1) * 0))]
    exact hB2def
  have hIb1 : (556.4 : ℝ) ≤ P1 * q2 + (1 - P1) * 20 := by
    nlinarith only [hP11, hP12, hq21, hq22]
  have hIb2 : P1 * q2 + (1 - P1) * 20 ≤ 557.2 := by
    nlinarith only [hP11, hP12, hq21, hq22]
  obtain ⟨A2, hA2def, hA21, hA22⟩ :
      ∃ x, D * (P1 * q2 + (1 - P1) * 20) = x ∧ (75.3 : ℝ) ≤ x ∧ x ≤ 75.5 :=
    ⟨_, rfl, by nlinarith only [hD1, hD2, hIb1, hIb2], by nlinarith only [hD1, hD2, hIb1, hIb2]⟩
  have hO01b : optionLattice 120 100 2 (1 / 5) (1 / 4) 2 2 none 0 1 = A2 := by
    rw [optionLattice_rec 120 100 2 (1 / 5) (1 / 4) 2 2 none 1 (by omega) 0 (by omega),
      hdisc, hps1,
      optionLattice_boundary 120 100 2 (1 / 5) (1 / 4) 2 2 none 0 (by omega),
      optionLattice_boundary 120 100 2 (1 / 5) (1 / 4) 2 2 none 1 (by omega),
      hN02b, hN12b, hN01b,
      max_eq_left (by nlinarith only [hD1, hIb1, hm22] :
        m2 ≤ D * (P1 * q2 + (1 - P1) * 20))]
    exact hA2def
  have hI00a1 : (730.3 : ℝ) ≤ P0 * A1 + (1 - P0) * B1 := by
    nlinarith only [hP01, hP02, hA11, hA12, hB11, hB12]
  have hI00a2 : P0 * A1 + (1 - P0) * B1 ≤ 734.0 := by
    nlinarith only [hP01, hP02, hA11, hA12, hB11, hB12]
  have hI00b1 : (644.3 : ℝ) ≤ P0 * A2 + (1 - P0) * B2 := by
    nlinarith only [hP01, hP02, hA21, hA22, hB21, hB22]
  have hI00b2 : P0 * A2 + (1 - P0) * B2 ≤ 648.9 := by
    nlinarith only [hP01, hP02, hA21, hA22, hB21, hB22]
  have hO00a : optionLattice 102 100 2 (1 / 5) (1 / 4) 2 2 none 0 0
      = D * (P0 * A1 + (1 - P0) * B1) := by
    rw [optionLattice_rec 102 100 2 (1 / 5) (1 / 4) 2 2 none 0 (by omega) 0 (by omega),
      hdisc, hps0, hO01a, hO11a, hN00a]
    exact max_eq_left (by nlinarith only [hD1, hI00a1])
  have hO00b : optionLattice 120 100 2 (1 / 5) (1 / 4) 2 2 none 0 0
      = D * (P0 * A2 + (1 - P0) * B2) := by
    rw [optionLattice_rec 120 100 2 (1 / 5) (1 / 4) 2 2 none 0 (by omega) 0 (by omega),
      hdisc, hps0, hO01b, hO11b, hN00b]
    exact max_eq_left (by nlinarith only [hD1, hI00b1])
  rw [hO00a, hO00b]
  have hfa : (98.8 : ℝ) ≤ D * (P0 * A1 + (1 - P0) * B1) := by
    nlinarith only [hD1, hI00a1]
  have hfb : D * (P0 * A2 + (1 - P0) * B2) ≤ 87.9 := by
    nlinarith only [hD1, hD2, hI00b1, hI00b2]
  linarith only [hfa, hfb]

end PatentValuation
